import Mathlib

/-!
Verification of the NexaBank onboarding backend's risk-scoring and decision
engine (src/app.py) against its natural-language specification.

The embedding below is a shallow translation of the Python source:

* `run_ocr`'s confidence computation (src/app.py lines 260-262) becomes
  `run_ocr_confidence`.
* `compute_risk` (src/app.py lines 276-363) becomes `compute_risk`, with one
  helper definition per scoring rule.  The Python code mutates a local
  `score` variable, subtracting each rule's penalty, and clamps at the end;
  here each rule returns its (nonnegative) penalty and its signal(s), and
  `finalScore` is `max 0 (min 100 (100 - p1 - ... - p6))`, which is exactly
  the accumulated subtraction followed by `max(0, min(100, score))`.
* `risk_evaluate`'s database write-back (src/app.py lines 963-997) becomes
  the state-transition function `risk_evaluate_update` on an
  `ApplicationRow`; the random account-number source `random.randint(0,9)`
  is injected as a digit stream `rng : Nat → Fin 10`.
* `admin_decision`'s write-back (src/app.py lines 1106-1156) becomes
  `admin_decision_update`.

Database NULLs are modelled with `Option`; Python truthiness coercions
(`x or default`) are translated explicitly at each use site.  The applicant's
date of birth enters `compute_risk` only through
`datetime.strptime(dob, number format) / 365`-style whole-year age inside a
`try`/bare-`except`; that computation is modelled by the field
`dobAge : Option Int`, where `none` stands for any exception (absent or
malformed DOB string) and `some age` for a successful parse yielding the
computed whole-year age.
-/

/-- One scoring factor, as appended to the `signals` list by `compute_risk`
(src/app.py: dictionaries with keys factor/weight/note). -/
structure Signal where
  factor : String
  weight : Int
  note   : String
deriving Repr, DecidableEq

/-- Result tuple of `compute_risk` (src/app.py line 363:
`return score, level, signals, reason`). -/
structure RiskResult where
  score   : Int
  level   : String
  signals : List Signal
  reason  : String
deriving Repr, DecidableEq

/-- A row of the `documents` table, restricted to the columns `compute_risk`
reads (src/app.py lines 281-302): `confidence` (nullable integer; the data
model keeps it in [0,100]) and `tamper_flags` (JSON list of strings, written
by `json.dumps`; `none` models SQL NULL, which the code maps to `[]` via
`d['tamper_flags'] or '[]'`). -/
structure DocumentRow where
  confidence   : Option Nat
  tamper_flags : Option (List String)
deriving Repr, DecidableEq

/-- A row of the `applications` table, restricted to the columns that the
risk engine, `risk_evaluate` and `admin_decision` read or write.
`dobAge` models the age computation of src/app.py lines 306-307 (see the
module comment). -/
structure ApplicationRow where
  dobAge         : Option Int
  face_score     : Option Int
  otp_verified   : Bool
  email          : Option String
  risk_score     : Option Int
  risk_level     : Option String
  risk_signals   : Option (List Signal)
  risk_reason    : Option String
  account_number : Option String
  ifsc           : Option String
  status         : String
deriving Repr, DecidableEq

/-- Python substring membership `needle in hay` on character lists:
true iff `needle` occurs contiguously inside `hay`. -/
def infixOfB (needle : List Char) : List Char → Bool
  | [] => needle.isEmpty
  | c :: t => needle.isPrefixOf (c :: t) || infixOfB needle t

/-- Python `needle in hay` for strings (substring containment). -/
def strContains (hay needle : String) : Bool :=
  infixOfB needle.data hay.data

/-- The fixed denylist of disposable-email fragments
(src/app.py line 343). -/
def DISPOSABLE : List String :=
  ["tempmail", "guerrillamail", "mailinator", "yopmail", "throwam"]

/-- Effective confidence of one document row: Python
`d['confidence'] or 50` (src/app.py line 282) maps NULL and 0 to 50. -/
def effConf : Option Nat → Nat
  | none => 50
  | some v => if v = 0 then 50 else v

/-- Rounding of `s / n` (with `n > 0`) to the nearest integer, ties to even:
the value printed by Python's float format `:.0f` for the average
confidence (src/app.py lines 285-291), up to binary floating-point
representation of the quotient. -/
def fmtAvg (s n : Nat) : Nat :=
  let q := s / n
  let r := s % n
  if 2 * r < n then q
  else if n < 2 * r then q + 1
  else if q % 2 = 0 then q else q + 1

/-- Rule 1, OCR confidence (src/app.py lines 281-291): skipped when no
document exists; otherwise thresholds on the average effective confidence.
The float comparisons `avg >= 75` and `avg >= 50` with `avg = s / n` are
rendered by cross-multiplication as `75 * n ≤ s` and `50 * n ≤ s`.
Returns (penalty, emitted signals). -/
def rule_ocr_conf (docs : List DocumentRow) : Int × List Signal :=
  if docs.isEmpty then (0, [])
  else
    let confs := docs.map (fun d => effConf d.confidence)
    let n := confs.length
    let s := confs.sum
    if 75 * n ≤ s then
      (0, [⟨"OCR Confidence", 0,
            toString (fmtAvg s n) ++ "% — high quality document image"⟩])
    else if 50 * n ≤ s then
      (10, [⟨"OCR Confidence", -10,
             toString (fmtAvg s n) ++ "% — moderate quality"⟩])
    else
      (25, [⟨"OCR Confidence", -25,
             toString (fmtAvg s n) ++ "% — low quality or illegible"⟩])

/-- Rule 2, tamper flags (src/app.py lines 293-302): skipped when no
document exists (the whole block is inside `if doc_rows:`); otherwise the
flags of all documents are concatenated and each flag costs 20 points. -/
def rule_tamper (docs : List DocumentRow) : Int × List Signal :=
  if docs.isEmpty then (0, [])
  else
    let allFlags := (docs.map (fun d => d.tamper_flags.getD [])).flatten
    if allFlags.isEmpty then
      (0, [⟨"Tamper Detection", 0, "No anomalies detected"⟩])
    else
      ((20 : Int) * allFlags.length,
       [⟨"Tamper Detection", -((20 : Int) * allFlags.length),
         String.intercalate "; " allFlags⟩])

/-- Rule 3, age gate (src/app.py lines 304-318): `none` is the bare-except
branch (DOB absent or unparsable). -/
def rule_age : Option Int → Int × Signal
  | none => (10, ⟨"Age Gate", -10, "DOB parse error"⟩)
  | some age =>
    if age < 18 then
      (100, ⟨"Age Gate", -100, "Applicant is " ++ toString age ++ " — below 18"⟩)
    else if age ≤ 65 then
      (0, ⟨"Age Gate", 0, "Age " ++ toString age ++ " — valid range"⟩)
    else
      (5, ⟨"Age Gate", -5, "Age " ++ toString age ++ " — senior applicant"⟩)

/-- Rule 4, biometric match (src/app.py lines 320-332): Python
`app_row['face_score'] or 0` maps NULL to 0 (and 0 to 0), i.e. `getD 0`. -/
def rule_face (face_score : Option Int) : Int × Signal :=
  let face := face_score.getD 0
  if 90 ≤ face then
    (0, ⟨"Biometric Match", 0, toString face ++ "% — strong match"⟩)
  else if 75 ≤ face then
    (10, ⟨"Biometric Match", -10, toString face ++ "% — acceptable"⟩)
  else if 0 < face then
    (30, ⟨"Biometric Match", -30, toString face ++ "% — poor match"⟩)
  else
    (15, ⟨"Biometric Match", -15, "No biometric data"⟩)

/-- Rule 5, OTP verification (src/app.py lines 334-339). -/
def rule_otp (otp_verified : Bool) : Int × Signal :=
  if otp_verified then
    (0, ⟨"OTP Verification", 0, "Mobile/email OTP verified"⟩)
  else
    (20, ⟨"OTP Verification", -20, "OTP not verified"⟩)

/-- Rule 6, email trust (src/app.py lines 341-348): Python
`app_row['email'] or ''` maps NULL to the empty string; the denylist test is
`any(d in email for d in disposable)`, a substring match against the WHOLE
email string; when the (effective) email is empty and no fragment matches,
no signal is emitted. -/
def rule_email (email : Option String) : Int × List Signal :=
  let e := email.getD ""
  if DISPOSABLE.any (fun d => strContains e d) then
    (20, [⟨"Email Trust", -20, "Disposable email detected"⟩])
  else if e.isEmpty then
    (0, [])
  else
    (0, [⟨"Email Trust", 0, "Email domain OK"⟩])

/-- The accumulated score before clamping: 100 minus each rule's penalty, in
the order of src/app.py lines 277-348 (the code does `score -= p` per rule). -/
def rawScore (a : ApplicationRow) (docs : List DocumentRow) : Int :=
  100 - (rule_ocr_conf docs).1 - (rule_tamper docs).1 - (rule_age a.dobAge).1
      - (rule_face a.face_score).1 - (rule_otp a.otp_verified).1
      - (rule_email a.email).1

/-- Final clamp `score = max(0, min(100, score))` (src/app.py line 350). -/
def finalScore (a : ApplicationRow) (docs : List DocumentRow) : Int :=
  max 0 (min 100 (rawScore a docs))

/-- Tier from score (src/app.py line 351):
`'Low' if score >= 70 else 'Medium' if score >= 45 else 'High'`. -/
def levelOf (score : Int) : String :=
  if 70 ≤ score then "Low" else if 45 ≤ score then "Medium" else "High"

/-- The signal list, in rule evaluation order (src/app.py lines 281-348). -/
def allSignals (a : ApplicationRow) (docs : List DocumentRow) : List Signal :=
  (rule_ocr_conf docs).2 ++ (rule_tamper docs).2
    ++ [(rule_age a.dobAge).2, (rule_face a.face_score).2,
        (rule_otp a.otp_verified).2]
    ++ (rule_email a.email).2

/-- Rationale composition (src/app.py lines 353-361). -/
def riskReason (level : String) (signals : List Signal) : String :=
  let negNotes := (signals.filter (fun s => decide (s.weight < 0))).map Signal.note
  let posNotes := (signals.filter (fun s => decide (s.weight = 0))).map Signal.note
  if level = "Low" then
    "All verification checks passed. " ++ String.intercalate ". " (posNotes.take 3)
  else if level = "Medium" then
    "Partial verification with minor issues. " ++ String.intercalate ". " negNotes
  else
    "Significant risk factors detected. " ++ String.intercalate ". " negNotes

/-- `compute_risk(app_row, doc_rows)` (src/app.py lines 276-363). -/
def compute_risk (a : ApplicationRow) (docs : List DocumentRow) : RiskResult :=
  ⟨finalScore a docs,
   levelOf (finalScore a docs),
   allSignals a docs,
   riskReason (levelOf (finalScore a docs)) (allSignals a docs)⟩

/-- One random decimal digit rendered as Python's `str(random.randint(0,9))`
(src/app.py line 970). -/
def digitStr (d : Fin 10) : String :=
  match d.val with
  | 0 => "0" | 1 => "1" | 2 => "2" | 3 => "3" | 4 => "4"
  | 5 => "5" | 6 => "6" | 7 => "7" | 8 => "8" | _ => "9"

/-- Four consecutive digits of the injected random stream, concatenated. -/
def acctGroup (rng : Nat → Fin 10) (base : Nat) : String :=
  digitStr (rng base) ++ digitStr (rng (base + 1))
    ++ digitStr (rng (base + 2)) ++ digitStr (rng (base + 3))

/-- Account-number generation and formatting (src/app.py lines 970-972 and
1132-1133): twelve random digits are joined into a 12-character string and
sliced `[:4]`, `[4:8]`, `[8:]` with single spaces between the groups; since
each `str(digit)` is exactly one character, the three slices are exactly the
three 4-digit groups below. -/
def formatAccount (rng : Nat → Fin 10) : String :=
  acctGroup rng 0 ++ " " ++ acctGroup rng 4 ++ " " ++ acctGroup rng 8

/-- All characters of a string are decimal digits. -/
def allDigits (s : String) : Bool :=
  s.data.all Char.isDigit

/-- The account-number format stated by the spec: 12 decimal digits grouped
4-4-4 with single-space separators. -/
def AccountFormatP (s : String) : Prop :=
  ∃ g1 g2 g3 : String,
    s = g1 ++ " " ++ g2 ++ " " ++ g3 ∧
    g1.length = 4 ∧ g2.length = 4 ∧ g3.length = 4 ∧
    allDigits g1 = true ∧ allDigits g2 = true ∧ allDigits g3 = true

/-- Status from tier in `risk_evaluate` (src/app.py line 976):
`{'Low':'Approved','Medium':'Pending','High':'Escalated'}[level]`; a key
outside the dictionary would raise `KeyError`, modelled as `none`. -/
def statusForLevel (level : String) : Option String :=
  if level = "Low" then some "Approved"
  else if level = "Medium" then some "Pending"
  else if level = "High" then some "Escalated"
  else none

/-- The row produced by `risk_evaluate`'s UPDATE statement (src/app.py
lines 980-986) given the status string `st` chosen for the computed tier:
an account number and IFSC are generated for levels Low and Medium
(src/app.py lines 966-974) and are `None` otherwise; `risk_score`,
`risk_level`, `risk_signals`, `risk_reason`, `account_number`, `ifsc` and
`status` are all overwritten unconditionally. -/
def risk_eval_core (row : ApplicationRow) (docs : List DocumentRow)
    (rng : Nat → Fin 10) (st : String) : ApplicationRow :=
  { row with
      risk_score := some (compute_risk row docs).score,
      risk_level := some (compute_risk row docs).level,
      risk_signals := some (compute_risk row docs).signals,
      risk_reason := some (compute_risk row docs).reason,
      account_number :=
        if (compute_risk row docs).level = "Low"
            ∨ (compute_risk row docs).level = "Medium" then
          some (formatAccount rng)
        else none,
      ifsc :=
        if (compute_risk row docs).level = "Low"
            ∨ (compute_risk row docs).level = "Medium" then
          some "NXBA0001234"
        else none,
      status := st }

/-- The database write-back of `risk_evaluate` (src/app.py lines 963-997):
`compute_risk` runs on the stored row and documents, the status is read from
the tier dictionary (`none` models its `KeyError`), and the UPDATE rewrites
the row as in `risk_eval_core`. -/
def risk_evaluate_update (row : ApplicationRow) (docs : List DocumentRow)
    (rng : Nat → Fin 10) : Option ApplicationRow :=
  (statusForLevel (compute_risk row docs).level).map (risk_eval_core row docs rng)

/-- The automated recommendation implied by the stored tier in
`admin_decision` (src/app.py line 1124):
`{'Low':'Approved','Medium':'Pending','High':'Escalated'}.get(risk_level,'Pending')`. -/
def aiRec (risk_level : Option String) : String :=
  if risk_level = some "Low" then "Approved"
  else if risk_level = some "Medium" then "Pending"
  else if risk_level = some "High" then "Escalated"
  else "Pending"

/-- Status from the reviewer's decision (src/app.py line 1127):
`{'Approved':'Approved','Rejected':'Rejected','More Info':'Pending'}.get(decision,'Pending')`. -/
def decisionStatus (decision : String) : String :=
  if decision = "Approved" then "Approved"
  else if decision = "Rejected" then "Rejected"
  else if decision = "More Info" then "Pending"
  else "Pending"

/-- Python truthiness of a nullable string: `not account_number` is true for
NULL and for the empty string. -/
def pyFalsyStr : Option String → Bool
  | none => true
  | some t => t.isEmpty

/-- The database write-back of `admin_decision` on an existing application
(src/app.py lines 1124-1143): returns the updated row and the recorded
`ai_overridden` flag.  A fresh account number is generated exactly when the
decision is Approved and the stored account number is falsy. -/
def admin_decision_update (row : ApplicationRow) (decision : String)
    (rng : Nat → Fin 10) : ApplicationRow × Bool :=
  let overrode := decision != aiRec row.risk_level
  let acct :=
    if decision == "Approved" && pyFalsyStr row.account_number then
      some (formatAccount rng)
    else row.account_number
  ({ row with status := decisionStatus decision, account_number := acct },
   overrode)

/-- Python `c.isspace()` for the ASCII whitespace characters recognised by
`str.split()` with no arguments (src/app.py line 261 `text.split()`). -/
def pyIsSpace (c : Char) : Bool :=
  c = ' ' || c = '\t' || c = '\n' || c = '\r' || c = '\x0b' || c = '\x0c'

/-- `len(text.split())` (src/app.py line 261): the number of maximal
whitespace-free tokens; splitting on whitespace and dropping empty pieces. -/
def wordCount (text : String) : Nat :=
  ((text.split pyIsSpace).filter (fun t => !t.isEmpty)).length

/-- OCR confidence on the successful extraction path (src/app.py line 262):
`min(95, max(30, word_count * 3))`. -/
def run_ocr_confidence (text : String) : Nat :=
  min 95 (max 30 (wordCount text * 3))

/-- Signal lookup by factor name, for stating which signal a rule emitted. -/
def findSignal (sigs : List Signal) (f : String) : Option Signal :=
  sigs.find? (fun s => s.factor == f)

/-- Sum of the penalties recorded on a signal list (each signal's weight is
the negated penalty). -/
def penaltySum (sigs : List Signal) : Int :=
  -((sigs.map Signal.weight).sum)

/-- Modelled from the spec: the host part of an email address (the spec's
email-trust rule speaks of matching "the email host" against the denylist;
the host part is what follows the last `@`).  This definition follows the
spec's words and exists to be compared with the source's behaviour
(`rule_email`), which matches against the whole email string. -/
def spec_emailHost (e : String) : String :=
  ⟨(e.data.reverse.takeWhile (fun c => c ≠ '@')).reverse⟩

/-- Modelled from the spec: whether the email's HOST part matches the
denylist by substring, as claim C5 states. -/
def spec_hostMatches (e : String) : Bool :=
  DISPOSABLE.any (fun d => strContains (spec_emailHost e) d)

/-- Modelled from the spec: the tier-implied default disposition
`{Low→Approved, Medium→Pending, High→Escalated}` named by claim C6, defined
for the three stored tiers (it is compared with the source's `aiRec` under
the hypothesis that a tier is stored). -/
def tierDefault (rl : Option String) : String :=
  if rl = some "Low" then "Approved"
  else if rl = some "Medium" then "Pending"
  else "Escalated"

/-- A sample applicant row used by concrete witnesses: age 30, strong
biometric match, OTP verified, ordinary email, no account yet. -/
def baseRow : ApplicationRow :=
  { dobAge := some 30, face_score := some 95, otp_verified := true,
    email := some "rohan.mehta@gmail.com", risk_score := none,
    risk_level := none, risk_signals := none, risk_reason := none,
    account_number := none, ifsc := none, status := "In Progress" }

/-- A sample row whose evaluation lands in tier Medium (age 30, no
biometric data, OTP not verified, no email: penalties 15 + 20 give score
65), with a previously issued account number. -/
def rowMediumCase : ApplicationRow :=
  { baseRow with face_score := none, otp_verified := false, email := none,
                 account_number := some "9999 9999 9999",
                 ifsc := some "NXBA0001234" }

/-- A sample row whose email contains a denylist fragment in its LOCAL
part while its host part is a clean `gmail.com`. -/
def rowEmailCase : ApplicationRow :=
  { baseRow with email := some "tempmail@gmail.com" }

/-- A document row whose stored confidence is 0 (as `run_ocr` produces when
OCR is unavailable or fails) and which carries no tamper flags. -/
def docZeroConf : DocumentRow :=
  { confidence := some 0, tamper_flags := some [] }

/-- A document row with stored confidence 80 and no tamper flags. -/
def docGood : DocumentRow :=
  { confidence := some 80, tamper_flags := some [] }

/-- A fixed all-zeros digit stream standing in for `random.randint(0,9)` in
concrete witnesses. -/
def rng0 : Nat → Fin 10 := fun _ => 0

/-- A sample row with stored tier Medium and no issued account number, as an
admin reviewer would see it before overriding. -/
def rowMediumStored : ApplicationRow :=
  { baseRow with risk_level := some "Medium" }

/-! ## Helper lemmas -/

theorem rule_ocr_conf_nonneg (docs : List DocumentRow) :
    0 ≤ (rule_ocr_conf docs).1 := by
  simp only [rule_ocr_conf]
  split_ifs <;> norm_num

theorem rule_tamper_nonneg (docs : List DocumentRow) :
    0 ≤ (rule_tamper docs).1 := by
  simp only [rule_tamper]
  split_ifs
  · norm_num
  · norm_num
  · exact mul_nonneg (by norm_num) (Int.natCast_nonneg _)

theorem rule_age_nonneg (d : Option Int) : 0 ≤ (rule_age d).1 := by
  cases d
  · norm_num [rule_age]
  · simp only [rule_age]
    split_ifs <;> norm_num

theorem rule_face_nonneg (f : Option Int) : 0 ≤ (rule_face f).1 := by
  simp only [rule_face]
  split_ifs <;> norm_num

theorem rule_otp_nonneg (b : Bool) : 0 ≤ (rule_otp b).1 := by
  cases b <;> simp [rule_otp]

theorem rule_email_nonneg (e : Option String) : 0 ≤ (rule_email e).1 := by
  simp only [rule_email]
  split_ifs <;> norm_num

theorem penaltySum_append (l1 l2 : List Signal) :
    penaltySum (l1 ++ l2) = penaltySum l1 + penaltySum l2 := by
  simp [penaltySum]
  ring

theorem penaltySum_rule_ocr (docs : List DocumentRow) :
    penaltySum (rule_ocr_conf docs).2 = (rule_ocr_conf docs).1 := by
  simp only [rule_ocr_conf]
  split_ifs <;> simp [penaltySum]

theorem penaltySum_rule_tamper (docs : List DocumentRow) :
    penaltySum (rule_tamper docs).2 = (rule_tamper docs).1 := by
  simp only [rule_tamper]
  split_ifs <;> simp [penaltySum]

theorem penaltySum_rule_email (e : Option String) :
    penaltySum (rule_email e).2 = (rule_email e).1 := by
  simp only [rule_email]
  split_ifs <;> simp [penaltySum]

theorem weight_rule_age (d : Option Int) :
    (rule_age d).2.weight = -((rule_age d).1) := by
  cases d
  · simp [rule_age]
  · simp only [rule_age]
    split_ifs <;> simp

theorem weight_rule_face (f : Option Int) :
    (rule_face f).2.weight = -((rule_face f).1) := by
  simp only [rule_face]
  split_ifs <;> simp

theorem weight_rule_otp (b : Bool) :
    (rule_otp b).2.weight = -((rule_otp b).1) := by
  cases b <;> simp [rule_otp]

theorem penaltySum_allSignals (a : ApplicationRow) (docs : List DocumentRow) :
    penaltySum (allSignals a docs)
      = (rule_ocr_conf docs).1 + (rule_tamper docs).1 + (rule_age a.dobAge).1
        + (rule_face a.face_score).1 + (rule_otp a.otp_verified).1
        + (rule_email a.email).1 := by
  simp only [allSignals, penaltySum_append]
  rw [penaltySum_rule_ocr, penaltySum_rule_tamper, penaltySum_rule_email]
  have h3 := weight_rule_age a.dobAge
  have h4 := weight_rule_face a.face_score
  have h5 := weight_rule_otp a.otp_verified
  simp only [penaltySum, List.map_cons, List.map_nil, List.sum_cons,
    List.sum_nil, h3, h4, h5]
  ring

theorem finalScore_nonneg (a : ApplicationRow) (docs : List DocumentRow) :
    0 ≤ finalScore a docs :=
  le_max_left 0 _

theorem finalScore_le_100 (a : ApplicationRow) (docs : List DocumentRow) :
    finalScore a docs ≤ 100 :=
  max_le (by norm_num) (min_le_left _ _)

theorem levelOf_cases (x : Int) :
    levelOf x = "Low" ∨ levelOf x = "Medium" ∨ levelOf x = "High" := by
  unfold levelOf
  split_ifs <;> simp

theorem factor_rule_ocr (docs : List DocumentRow) :
    ∀ s ∈ (rule_ocr_conf docs).2, s.factor = "OCR Confidence" := by
  intro s hs
  simp only [rule_ocr_conf] at hs
  split_ifs at hs <;> simp_all

theorem factor_rule_tamper (docs : List DocumentRow) :
    ∀ s ∈ (rule_tamper docs).2, s.factor = "Tamper Detection" := by
  intro s hs
  simp only [rule_tamper] at hs
  split_ifs at hs <;> simp_all

theorem factor_rule_email (e : Option String) :
    ∀ s ∈ (rule_email e).2, s.factor = "Email Trust" := by
  intro s hs
  simp only [rule_email] at hs
  split_ifs at hs <;> simp_all

theorem factor_rule_age (d : Option Int) : (rule_age d).2.factor = "Age Gate" := by
  cases d
  · rfl
  · simp only [rule_age]
    split_ifs <;> rfl

theorem factor_rule_face (f : Option Int) :
    (rule_face f).2.factor = "Biometric Match" := by
  simp only [rule_face]
  split_ifs <;> rfl

theorem factor_rule_otp (b : Bool) :
    (rule_otp b).2.factor = "OTP Verification" := by
  cases b <;> rfl

theorem find?_eq_none_of_factor {l : List Signal} {g f : String}
    (hl : ∀ s ∈ l, s.factor = g) (h : g ≠ f) :
    l.find? (fun s => s.factor == f) = none := by
  rw [List.find?_eq_none]
  intro x hx
  rw [hl x hx]
  simp [h]

theorem digitStr_length : ∀ d : Fin 10, (digitStr d).length = 1 := by decide

theorem digitStr_digits : ∀ d : Fin 10, allDigits (digitStr d) = true := by decide

theorem acctGroup_length (rng : Nat → Fin 10) (b : Nat) :
    (acctGroup rng b).length = 4 := by
  simp [acctGroup, String.length_append, digitStr_length]

theorem acctGroup_digits (rng : Nat → Fin 10) (b : Nat) :
    allDigits (acctGroup rng b) = true := by
  have h : ∀ d : Fin 10, (digitStr d).data.all Char.isDigit = true :=
    digitStr_digits
  simp [acctGroup, allDigits, String.data_append, List.all_append, h]

theorem formatAccount_format (rng : Nat → Fin 10) :
    AccountFormatP (formatAccount rng) :=
  ⟨acctGroup rng 0, acctGroup rng 4, acctGroup rng 8, rfl,
    acctGroup_length rng 0, acctGroup_length rng 4, acctGroup_length rng 8,
    acctGroup_digits rng 0, acctGroup_digits rng 4, acctGroup_digits rng 8⟩

theorem find?_mid_none (a : ApplicationRow) (f : String)
    (h3 : "Age Gate" ≠ f) (h4 : "Biometric Match" ≠ f)
    (h5 : "OTP Verification" ≠ f) :
    [(rule_age a.dobAge).2, (rule_face a.face_score).2,
     (rule_otp a.otp_verified).2].find? (fun s => s.factor == f) = none := by
  rw [List.find?_eq_none]
  intro x hx
  simp only [List.mem_cons, List.not_mem_nil, or_false] at hx
  rcases hx with rfl | rfl | rfl
  · rw [factor_rule_age] at *
    simp [factor_rule_age, h3]
  · simp [factor_rule_face, h4]
  · simp [factor_rule_otp, h5]

theorem find?_allSignals_email (a : ApplicationRow) (docs : List DocumentRow) :
    findSignal (allSignals a docs) "Email Trust"
      = (rule_email a.email).2.find? (fun s => s.factor == "Email Trust") := by
  have h1 : (rule_ocr_conf docs).2.find? (fun s => s.factor == "Email Trust") = none :=
    find?_eq_none_of_factor (factor_rule_ocr docs) (by decide)
  have h2 : (rule_tamper docs).2.find? (fun s => s.factor == "Email Trust") = none :=
    find?_eq_none_of_factor (factor_rule_tamper docs) (by decide)
  have hm := find?_mid_none a "Email Trust" (by decide) (by decide) (by decide)
  unfold findSignal allSignals
  simp only [List.find?_append, h1, h2, hm, Option.none_or]

theorem find?_allSignals_ocr (a : ApplicationRow) (docs : List DocumentRow) :
    findSignal (allSignals a docs) "OCR Confidence"
      = (rule_ocr_conf docs).2.find? (fun s => s.factor == "OCR Confidence") := by
  have h2 : (rule_tamper docs).2.find? (fun s => s.factor == "OCR Confidence") = none :=
    find?_eq_none_of_factor (factor_rule_tamper docs) (by decide)
  have h6 : (rule_email a.email).2.find? (fun s => s.factor == "OCR Confidence") = none :=
    find?_eq_none_of_factor (factor_rule_email a.email) (by decide)
  have hm := find?_mid_none a "OCR Confidence" (by decide) (by decide) (by decide)
  unfold findSignal allSignals
  simp only [List.find?_append, h2, h6, hm, Option.none_or, Option.or_none]

theorem find?_allSignals_tamper (a : ApplicationRow) (docs : List DocumentRow) :
    findSignal (allSignals a docs) "Tamper Detection"
      = ((rule_ocr_conf docs).2.find? (fun s => s.factor == "Tamper Detection")).or
          ((rule_tamper docs).2.find? (fun s => s.factor == "Tamper Detection")) := by
  have h6 : (rule_email a.email).2.find? (fun s => s.factor == "Tamper Detection") = none :=
    find?_eq_none_of_factor (factor_rule_email a.email) (by decide)
  have hm := find?_mid_none a "Tamper Detection" (by decide) (by decide) (by decide)
  unfold findSignal allSignals
  simp only [List.find?_append, h6, hm, Option.none_or, Option.or_none]

theorem risk_evaluate_some (row : ApplicationRow) (docs : List DocumentRow)
    (rng : Nat → Fin 10) (st : String)
    (h : statusForLevel (compute_risk row docs).level = some st) :
    risk_evaluate_update row docs rng = some (risk_eval_core row docs rng st) := by
  unfold risk_evaluate_update
  rw [h]
  rfl

theorem risk_eval_core_status (row : ApplicationRow) (docs : List DocumentRow)
    (rng : Nat → Fin 10) (st : String) :
    (risk_eval_core row docs rng st).status = st := rfl

theorem risk_eval_core_level (row : ApplicationRow) (docs : List DocumentRow)
    (rng : Nat → Fin 10) (st : String) :
    (risk_eval_core row docs rng st).risk_level
      = some (compute_risk row docs).level := rfl

theorem risk_eval_core_account (row : ApplicationRow) (docs : List DocumentRow)
    (rng : Nat → Fin 10) (st : String) :
    (risk_eval_core row docs rng st).account_number
      = (if (compute_risk row docs).level = "Low"
            ∨ (compute_risk row docs).level = "Medium" then
           some (formatAccount rng)
         else none) := rfl

theorem risk_eval_core_ifsc (row : ApplicationRow) (docs : List DocumentRow)
    (rng : Nat → Fin 10) (st : String) :
    (risk_eval_core row docs rng st).ifsc
      = (if (compute_risk row docs).level = "Low"
            ∨ (compute_risk row docs).level = "Medium" then
           some "NXBA0001234"
         else none) := rfl

/-! ## Claim theorems -/

/-- C2: for every applicant snapshot and document list, the final risk score
equals `clamp(100 - sum(penalties), 0, 100)` (the penalties being those
recorded on the returned signal list), hence always lies in [0, 100], and
the returned tier is the pure threshold function `levelOf` of that score
(score ≥ 70 → Low, 45 ≤ score < 70 → Medium, otherwise High). -/
theorem claim_C2_score_clamp_and_tier (a : ApplicationRow)
    (docs : List DocumentRow) :
    (compute_risk a docs).score
        = max 0 (min 100 (100 - penaltySum (compute_risk a docs).signals)) ∧
    0 ≤ (compute_risk a docs).score ∧ (compute_risk a docs).score ≤ 100 ∧
    (compute_risk a docs).level = levelOf (compute_risk a docs).score := by
  refine ⟨?_, finalScore_nonneg a docs, finalScore_le_100 a docs, rfl⟩
  show finalScore a docs = max 0 (min 100 (100 - penaltySum (allSignals a docs)))
  rw [penaltySum_allSignals]
  have h : rawScore a docs
      = 100 - ((rule_ocr_conf docs).1 + (rule_tamper docs).1
          + (rule_age a.dobAge).1 + (rule_face a.face_score).1
          + (rule_otp a.otp_verified).1 + (rule_email a.email).1) := by
    unfold rawScore
    ring
  rw [← h]
  rfl

/-- C3: an applicant whose computed age is below 18 is tiered High no matter
what every other input signal is: the 100-point age-gate penalty alone
drives the clamped score to 0, which is below the Medium threshold. -/
theorem claim_C3_age_gate_forces_high (a : ApplicationRow)
    (docs : List DocumentRow) (age : Int)
    (h1 : a.dobAge = some age) (h2 : age < 18) :
    (compute_risk a docs).level = "High" := by
  have hage : (rule_age a.dobAge).1 = 100 := by
    rw [h1]
    simp only [rule_age]
    rw [if_pos h2]
  have n1 := rule_ocr_conf_nonneg docs
  have n2 := rule_tamper_nonneg docs
  have n4 := rule_face_nonneg a.face_score
  have n5 := rule_otp_nonneg a.otp_verified
  have n6 := rule_email_nonneg a.email
  have hraw : rawScore a docs ≤ 0 := by
    unfold rawScore
    rw [hage] at *
    omega
  have hfs : finalScore a docs = 0 := by
    unfold finalScore
    rw [min_eq_right (le_trans hraw (by norm_num)), max_eq_left hraw]
  show levelOf (finalScore a docs) = "High"
  rw [hfs]
  decide

/-- C3 witness: an otherwise perfect applicant aged 17 is tiered High. -/
theorem claim_C3_witness :
    (compute_risk { baseRow with dobAge := some 17 } []).level = "High" :=
  claim_C3_age_gate_forces_high { baseRow with dobAge := some 17 } [] 17 rfl
    (by norm_num)

/-- C9: the scoring function contains no hidden randomness: two calls on
identical applicant snapshots and identical document lists return identical
results (score, tier, signal list and rationale alike).  In this embedding
`compute_risk` consumes no random source — the only randomness of the
module, `random.randint` for account numbers, is injected into
`risk_evaluate_update` and never into `compute_risk`. -/
theorem claim_C9_scoring_deterministic (a1 a2 : ApplicationRow)
    (d1 d2 : List DocumentRow) (ha : a1 = a2) (hd : d1 = d2) :
    compute_risk a1 d1 = compute_risk a2 d2 := by
  rw [ha, hd]

/-- C9 witness at a concrete input. -/
theorem claim_C9_witness :
    compute_risk baseRow [docGood] = compute_risk baseRow [docGood] :=
  claim_C9_scoring_deterministic baseRow baseRow [docGood] [docGood] rfl rfl

/-- C10: on the successful extraction path the OCR confidence is exactly
`min(95, max(30, wordCount * 3))` over the whitespace-delimited token count,
and therefore always lies between 30 and 95. -/
theorem claim_C10_confidence_formula_and_bounds (text : String) :
    run_ocr_confidence text = min 95 (max 30 (wordCount text * 3)) ∧
    30 ≤ run_ocr_confidence text ∧ run_ocr_confidence text ≤ 95 :=
  ⟨rfl, le_min (by norm_num) (le_max_left _ _), min_le_left _ _⟩

/-- C1 counterexample: evaluating a tier-Medium applicant (age 30, no
biometric data, OTP not verified, no email: score 65) stores status Pending
but ALSO issues an account number — the claim's "tier Medium → no account
issued" is false on the code, which generates an account for
`level in ('Low', 'Medium')` (src/app.py line 969). -/
theorem claim_C1_counterexample :
    (risk_evaluate_update rowMediumCase [] rng0).map
        (fun o => (o.risk_level, o.status, o.account_number))
      = some (some "Medium", "Pending", some "0000 0000 0000") ∧
    (some "0000 0000 0000" : Option String) ≠ none :=
  ⟨rfl, by decide⟩

/-- C1 (amended): the decision mapper sends tier Low to status Approved,
tier Medium to status Pending and tier High to status Escalated; an account
number and the fixed routing code are issued for tiers Low AND Medium
(not only Low, as the original claim said), none for High; every issued
account number is 12 decimal digits grouped 4-4-4 with single-space
separators. -/
theorem claim_C1_decision_mapping (row : ApplicationRow)
    (docs : List DocumentRow) (rng : Nat → Fin 10) :
    ∃ out, risk_evaluate_update row docs rng = some out ∧
      out.status = (if (compute_risk row docs).level = "Low" then "Approved"
        else if (compute_risk row docs).level = "Medium" then "Pending"
        else "Escalated") ∧
      out.account_number
        = (if (compute_risk row docs).level = "High" then none
           else some (formatAccount rng)) ∧
      out.ifsc = (if (compute_risk row docs).level = "High" then none
                  else some "NXBA0001234") ∧
      AccountFormatP (formatAccount rng) := by
  have hl : (compute_risk row docs).level = levelOf (finalScore row docs) := rfl
  rcases levelOf_cases (finalScore row docs) with h | h | h <;> rw [← hl] at h
  · refine ⟨risk_eval_core row docs rng "Approved",
      risk_evaluate_some row docs rng "Approved" (by rw [h]; rfl), ?_, ?_, ?_,
      formatAccount_format rng⟩
    · rw [risk_eval_core_status, h]
      simp
    · rw [risk_eval_core_account, h]
      simp
    · rw [risk_eval_core_ifsc, h]
      simp
  · refine ⟨risk_eval_core row docs rng "Pending",
      risk_evaluate_some row docs rng "Pending" (by rw [h]; rfl), ?_, ?_, ?_,
      formatAccount_format rng⟩
    · rw [risk_eval_core_status, h]
      simp
    · rw [risk_eval_core_account, h]
      simp
    · rw [risk_eval_core_ifsc, h]
      simp
  · refine ⟨risk_eval_core row docs rng "Escalated",
      risk_evaluate_some row docs rng "Escalated" (by rw [h]; rfl), ?_, ?_, ?_,
      formatAccount_format rng⟩
    · rw [risk_eval_core_status, h]
      simp
    · rw [risk_eval_core_account, h]
      simp
    · rw [risk_eval_core_ifsc, h]
      simp

/-- C7: every risk evaluation unconditionally overwrites the stored account
number and routing code: the updated row's `account_number` and `ifsc` are a
function of the computed tier and the fresh random stream only — the
universally quantified `row` (hence any previously issued account number)
does not occur in them — with `none` stored for tier High and the freshly
generated `formatAccount rng` for tiers Low and Medium. -/
theorem claim_C7_unconditional_overwrite (row : ApplicationRow)
    (docs : List DocumentRow) (rng : Nat → Fin 10) :
    ∃ out, risk_evaluate_update row docs rng = some out ∧
      out.account_number
        = (if (compute_risk row docs).level = "High" then none
           else some (formatAccount rng)) ∧
      out.ifsc = (if (compute_risk row docs).level = "High" then none
                  else some "NXBA0001234") ∧
      out.risk_level = some (compute_risk row docs).level := by
  have hl : (compute_risk row docs).level = levelOf (finalScore row docs) := rfl
  rcases levelOf_cases (finalScore row docs) with h | h | h <;> rw [← hl] at h
  · refine ⟨risk_eval_core row docs rng "Approved",
      risk_evaluate_some row docs rng "Approved" (by rw [h]; rfl), ?_, ?_,
      risk_eval_core_level row docs rng "Approved"⟩
    · rw [risk_eval_core_account, h]
      simp
    · rw [risk_eval_core_ifsc, h]
      simp
  · refine ⟨risk_eval_core row docs rng "Pending",
      risk_evaluate_some row docs rng "Pending" (by rw [h]; rfl), ?_, ?_,
      risk_eval_core_level row docs rng "Pending"⟩
    · rw [risk_eval_core_account, h]
      simp
    · rw [risk_eval_core_ifsc, h]
      simp
  · refine ⟨risk_eval_core row docs rng "Escalated",
      risk_evaluate_some row docs rng "Escalated" (by rw [h]; rfl), ?_, ?_,
      risk_eval_core_level row docs rng "Escalated"⟩
    · rw [risk_eval_core_account, h]
      simp
    · rw [risk_eval_core_ifsc, h]
      simp

/-- C6: for an admin decision on an application with a stored tier, the
recorded override flag is true exactly when the reviewer's decision differs
from the tier-implied default (Low→Approved, Medium→Pending,
High→Escalated); a More Info decision stores status Pending; and an
Approved decision on an application lacking an account number (NULL or
empty) generates one in the 4-4-4 digit format. -/
theorem claim_C6_admin_override (row : ApplicationRow) (decision : String)
    (rng : Nat → Fin 10)
    (htier : row.risk_level = some "Low" ∨ row.risk_level = some "Medium"
      ∨ row.risk_level = some "High") :
    ((admin_decision_update row decision rng).2 = true
        ↔ decision ≠ tierDefault row.risk_level) ∧
    (decision = "More Info" →
      (admin_decision_update row decision rng).1.status = "Pending") ∧
    (decision = "Approved" → pyFalsyStr row.account_number = true →
      (admin_decision_update row decision rng).1.account_number
          = some (formatAccount rng) ∧
      AccountFormatP (formatAccount rng)) := by
  have hrec : aiRec row.risk_level = tierDefault row.risk_level := by
    rcases htier with h | h | h <;> simp [h, aiRec, tierDefault]
  refine ⟨?_, ?_, ?_⟩
  · show (decision != aiRec row.risk_level) = true ↔ _
    rw [hrec]
    simp [bne_iff_ne]
  · intro h
    show decisionStatus decision = "Pending"
    rw [h]
    rfl
  · intro h1 h2
    refine ⟨?_, formatAccount_format rng⟩
    show (if decision == "Approved" && pyFalsyStr row.account_number then
            some (formatAccount rng)
          else row.account_number) = some (formatAccount rng)
    rw [h1, h2]
    rfl

/-- C6 witness: stored tier Medium (implied default Pending), reviewer
decision Approved, no stored account number: the override flag is recorded
and an account number is generated. -/
theorem claim_C6_witness :
    (admin_decision_update rowMediumStored "Approved" rng0).2 = true ∧
    (admin_decision_update rowMediumStored "Approved" rng0).1.account_number
      = some (formatAccount rng0) := by
  have h := claim_C6_admin_override rowMediumStored "Approved" rng0
    (Or.inr (Or.inl rfl))
  exact ⟨h.1.mpr (by decide), (h.2.2 rfl rfl).1⟩

/-- C4 counterexample: a single document whose STORED confidence is 0 (so
the mean of stored values is 0, for which the claim demands penalty 25)
receives the penalty-10 "moderate quality" signal, because the code reads
`d['confidence'] or 50` and so replaces the stored 0 by 50 before
averaging. -/
theorem claim_C4_counterexample :
    findSignal (compute_risk baseRow [docZeroConf]).signals "OCR Confidence"
      = some ⟨"OCR Confidence", -10, "50% — moderate quality"⟩ ∧
    ([docZeroConf].map (fun d => d.confidence.getD 0)).sum
      < 50 * [docZeroConf].length :=
  ⟨rfl, by decide⟩

/-- C4 (amended): with at least one document, the OCR-confidence penalty is
determined by the arithmetic mean of the documents' EFFECTIVE confidence
values — a stored confidence that is NULL or 0 counts as 50 — with
weight 0 when the mean is at least 75, weight -10 when it is in [50, 75),
and weight -25 below 50 (stated by cross-multiplication: mean ≥ t iff
t * count ≤ sum); with zero documents neither an OCR-confidence nor a
Tamper Detection signal is emitted and both rules contribute penalty 0. -/
theorem claim_C4_ocr_mean_rule (a : ApplicationRow)
    (docs : List DocumentRow) :
    (docs = [] →
      findSignal (compute_risk a docs).signals "OCR Confidence" = none ∧
      findSignal (compute_risk a docs).signals "Tamper Detection" = none ∧
      (rule_ocr_conf docs).1 = 0 ∧ (rule_tamper docs).1 = 0) ∧
    (docs ≠ [] →
      (findSignal (compute_risk a docs).signals "OCR Confidence").map
          Signal.weight
        = some (if 75 * docs.length
                    ≤ (docs.map (fun d => effConf d.confidence)).sum then 0
                else if 50 * docs.length
                    ≤ (docs.map (fun d => effConf d.confidence)).sum then -10
                else -25)) := by
  constructor
  · rintro rfl
    refine ⟨?_, ?_, rfl, rfl⟩
    · show findSignal (allSignals a []) "OCR Confidence" = none
      rw [find?_allSignals_ocr a []]
      rfl
    · show findSignal (allSignals a []) "Tamper Detection" = none
      rw [find?_allSignals_tamper a []]
      rfl
  · intro h
    have hne : docs.isEmpty = false := by
      cases docs
      · exact absurd rfl h
      · rfl
    have hs : findSignal (compute_risk a docs).signals "OCR Confidence"
        = (rule_ocr_conf docs).2.find? (fun s => s.factor == "OCR Confidence") :=
      find?_allSignals_ocr a docs
    rw [hs]
    simp only [rule_ocr_conf, hne, Bool.false_eq_true, if_false,
      List.length_map]
    split_ifs <;> simp

/-- C4 witness: one document with stored confidence 80 (mean 80 ≥ 75) gets
the weight-0 OCR-confidence signal. -/
theorem claim_C4_witness :
    (findSignal (compute_risk baseRow [docGood]).signals "OCR Confidence").map
        Signal.weight = some 0 := by
  have h := (claim_C4_ocr_mean_rule baseRow [docGood]).2 (List.cons_ne_nil _ _)
  exact h.trans (by decide)

/-- C5 counterexample: the applicant email `tempmail@gmail.com` has host
part `gmail.com`, which matches no denylist fragment — yet the code records
the penalty-20 Disposable-email signal, because it substring-matches the
fragments against the WHOLE email string (src/app.py line 344), where the
local part contains `tempmail`.  The claim's "penalty 20 exactly when the
email's host part matches" is therefore false on the code. -/
theorem claim_C5_counterexample :
    findSignal (compute_risk rowEmailCase []).signals "Email Trust"
      = some ⟨"Email Trust", -20, "Disposable email detected"⟩ ∧
    spec_hostMatches "tempmail@gmail.com" = false :=
  ⟨rfl, by decide⟩

/-- C5 (amended): the Email Trust signal carries penalty 20 exactly when
some denylist fragment occurs as a substring of the ENTIRE email string
(not merely of its host part); an email that is present (nonempty) and
matches no fragment yields the weight-0 signal; and when the effective
email is empty (NULL or empty string) and matches no fragment, no Email
Trust signal is emitted at all. -/
theorem claim_C5_email_rule (a : ApplicationRow) (docs : List DocumentRow) :
    findSignal (compute_risk a docs).signals "Email Trust"
      = (if DISPOSABLE.any (fun d => strContains (a.email.getD "") d) then
           some ⟨"Email Trust", -20, "Disposable email detected"⟩
         else if (a.email.getD "").isEmpty then none
         else some ⟨"Email Trust", 0, "Email domain OK"⟩) := by
  have hs : findSignal (compute_risk a docs).signals "Email Trust"
      = (rule_email a.email).2.find? (fun s => s.factor == "Email Trust") :=
    find?_allSignals_email a docs
  rw [hs]
  simp only [rule_email]
  split_ifs <;> simp

/-- C8: the scoring engine is a total function: for every applicant and
document combination it returns a complete result whose score lies in
[0, 100] and whose tier is one of the three recognised tiers, and a
malformed or absent date of birth (the `dobAge = none` case, covering every
exception of the source's bare `except`) is recovered locally as the
10-point DOB-parse-error Age Gate signal rather than propagated.  (In this
embedding `compute_risk` is a Lean function, so no exception path exists at
all; the one fallible operation of the source, date parsing, is the
modelled `none` case.) -/
theorem claim_C8_total_and_dob_recovery (a : ApplicationRow)
    (docs : List DocumentRow) :
    0 ≤ (compute_risk a docs).score ∧ (compute_risk a docs).score ≤ 100 ∧
    ((compute_risk a docs).level = "Low" ∨ (compute_risk a docs).level = "Medium"
      ∨ (compute_risk a docs).level = "High") ∧
    (a.dobAge = none →
      (⟨"Age Gate", -10, "DOB parse error"⟩ : Signal)
        ∈ (compute_risk a docs).signals) := by
  refine ⟨finalScore_nonneg a docs, finalScore_le_100 a docs,
    levelOf_cases (finalScore a docs), ?_⟩
  intro h
  show _ ∈ allSignals a docs
  unfold allSignals
  rw [h]
  simp [rule_age]

/-- C8 witness: an applicant with no parsable date of birth still gets a
complete result containing the DOB-parse-error signal. -/
theorem claim_C8_witness :
    (⟨"Age Gate", -10, "DOB parse error"⟩ : Signal)
      ∈ (compute_risk { baseRow with dobAge := none } []).signals :=
  (claim_C8_total_and_dob_recovery { baseRow with dobAge := none } []).2.2.2 rfl
